import Mathlib

/-!
Verification of the otomoto bulk scraper (`src/main.py`) against its
specification, as a shallow embedding in Lean 4.

Modelling conventions:
* A fetched, parsed page (`BeautifulSoup(res.text)`) is modelled by `Soup`,
  whose fields hold exactly the results of the queries `scrape_one` performs
  (`soup.title` and its `.string`, the meta-description tag's `content`
  attribute, the description container's paragraph texts, the price span's
  text, the mileage span's text, and each detail container's paragraph texts).
* The network is an oracle `fetch : String → FetchResult`; a raised
  `requests` exception is `FetchResult.err msg` with `msg` the exception's
  string representation (`str(exc)`).
* Python code that can raise after the fetch (the unguarded
  `soup.title.string.strip()` when the title tag has no single string child)
  is modelled with `Except String`.
* Spreadsheet cells are modelled by `Cell` (missing value, string, or
  integer).  `pandas.to_numeric(·, errors="coerce").astype("Int64")` is
  `coerceCell`: it parses integer, decimal and scientific literals and the
  `inf`/`nan` literals, keeping decimal values exactly; non-numeric strings
  and `nan` coerce to missing, while non-integral or out-of-`Int64`-range
  values (including `inf`) make `astype("Int64")` raise, aborting the run.
  Float-typed input cells, and literals whose significand exceeds float64's
  53-bit precision (where pandas' float64 parse rounds), are outside the
  modelled domain.
-/

/-- Whitespace characters stripped by Python's `str.strip()` (ASCII range). -/
def pyIsSpace (c : Char) : Bool :=
  c = ' ' || c = '\t' || c = '\n' || c = '\r' || c = '\x0b' || c = '\x0c'

/-- Python `str.strip()`: drop leading and trailing whitespace. -/
def pyStrip (s : String) : String :=
  String.mk (((s.data.dropWhile pyIsSpace).reverse.dropWhile pyIsSpace).reverse)

/-- Python `needle in hay` on strings: substring containment. -/
def pyContains (hay needle : String) : Bool :=
  decide (needle.data <:+: hay.data)

/-- `_num_re.sub("", text)`: remove every character that is not an ASCII
decimal digit (`re.compile(r"[^0-9]")`). -/
def stripNonDigits (s : String) : String :=
  String.mk (s.data.filter Char.isDigit)

/-- Python `int` on a non-empty string of ASCII digits. -/
def digitsToNat (l : List Char) : Nat :=
  l.foldl (fun a c => a * 10 + (c.toNat - 48)) 0

/-- `_to_int(text)` from `src/main.py`: `None` for a missing or empty string;
otherwise remove the non-digits and parse, `None` if no digits remain. -/
def toInt (text : Option String) : Option Nat :=
  match text with
  | none => none
  | some t =>
    if t = "" then none
    else
      let digits := stripNonDigits t
      if digits = "" then none else some (digitsToNat digits.data)

/-- The parsed page, holding the results of the HTML queries `scrape_one`
makes.  `title = some none` is a present `<title>` tag whose `.string` is
`None` (no single string child); `metaDescContent = some none` is a present
meta-description tag without a `content` attribute.  Paragraph texts are the
results of `get_text(strip=True)`. -/
structure Soup where
  title : Option (Option String)
  metaDescContent : Option (Option String)
  descDiv : Option (List String)
  priceText : Option String
  mileageText : Option String
  details : List (List String)
deriving Repr, DecidableEq

/-- Result of `requests.get` + `raise_for_status`: a parsed page, or the
string representation of the raised exception. -/
inductive FetchResult where
  | ok (soup : Soup)
  | err (msg : String)
deriving Repr, DecidableEq

/-- The dictionary returned by `scrape_one`. -/
structure ScrapeResult where
  Title : String
  Przebieg : Option Nat
  Price : Option Nat
  Description : String
  Error : String
deriving Repr, DecidableEq

/-- `soup.title.string.strip() if soup.title else ""`.  Raises
`AttributeError` when the title tag is present but `.string` is `None`. -/
def titleStep (s : Soup) : Except String String :=
  match s.title with
  | none => Except.ok ""
  | some none => Except.error "AttributeError"
  | some (some t) => Except.ok (pyStrip t)

/-- Lines 40-51 of `src/main.py`: meta-description fallback computed first
(`content` attribute must be truthy, i.e. present and non-empty), then
overridden by the newline-join of the description container's paragraphs
when that join is truthy. -/
def descriptionOf (s : Soup) : String :=
  let description :=
    match s.metaDescContent with
    | some (some c) => if c = "" then "" else pyStrip c
    | _ => ""
  match s.descDiv with
  | some paragraphs =>
    let user_desc := String.intercalate "\n" paragraphs
    if user_desc = "" then description else user_desc
  | none => description

/-- Lines 53-54: `_to_int(price_tag.get_text()) if price_tag else None`. -/
def priceOf (s : Soup) : Option Nat :=
  match s.priceText with
  | some t => toInt (some t)
  | none => none

/-- Lines 62-69: scan the `data-testid="detail"` containers; the first one
with at least two paragraphs whose first (label) contains "Przebieg" decides
the mileage (`break`), parsing the second (value) paragraph. -/
def scanDetails : List (List String) → Option Nat
  | [] => none
  | paragraphs :: rest =>
    match paragraphs with
    | label :: value :: _ =>
      if pyContains label "Przebieg" then toInt (some value)
      else scanDetails rest
    | _ => scanDetails rest

/-- Lines 56-69: the mileage span's text if the span is present, otherwise
the detail-container scan. -/
def mileageOf (s : Soup) : Option Nat :=
  match s.mileageText with
  | some t => toInt (some t)
  | none => scanDetails s.details

/-- `scrape_one` from `src/main.py`.  A fetch exception yields the skeleton
dictionary with the exception text in `Error`; after a successful fetch the
title step may raise (modelled by `Except.error`), and otherwise the field
extractions are total. -/
def scrape_one (fetch : String → FetchResult) (url : String) :
    Except String ScrapeResult :=
  match fetch url with
  | FetchResult.err msg =>
    Except.ok
      { Title := "", Przebieg := none, Price := none, Description := "",
        Error := msg }
  | FetchResult.ok soup =>
    match titleStep soup with
    | Except.error e => Except.error e
    | Except.ok title =>
      Except.ok
        { Title := title
          Przebieg := mileageOf soup
          Price := priceOf soup
          Description := descriptionOf soup
          Error := "" }

/-- A spreadsheet cell: missing (`pd.NA` / `NaN` / `None`), a string, or an
integer.  Floating-point values are outside the modelled domain. -/
inductive Cell where
  | na
  | str (s : String)
  | int (n : Int)
deriving Repr, DecidableEq

/-- Python `str(·)` on a non-missing cell value. -/
def cellStr (c : Cell) : String :=
  match c with
  | Cell.na => "<NA>"
  | Cell.str s => s
  | Cell.int n => toString n

/-- Line 94: `pd.isna(url) or not str(url).strip()` — the row-skip test. -/
def skipUrl (c : Cell) : Bool :=
  match c with
  | Cell.na => true
  | c => pyStrip (cellStr c) = ""

/-- One spreadsheet row: the first (URL) column plus the five output
columns written by the scraper. -/
structure Row where
  url : Cell
  Title : Cell
  Przebieg : Cell
  Price : Cell
  Description : Cell
  Error : Cell
deriving Repr, DecidableEq

/-- Which of the five output columns already exist in the input sheet. -/
structure ColsPresent where
  title : Bool
  przebieg : Bool
  price : Bool
  description : Bool
  error : Bool
deriving Repr, DecidableEq

/-- Lines 88-91: create each missing output column, filled with `pd.NA`.
A column absent from the input has no cell values, so its modelled cells
are replaced by `Cell.na`. -/
def addMissing (p : ColsPresent) (r : Row) : Row :=
  { r with
    Title := if p.title then r.Title else Cell.na
    Przebieg := if p.przebieg then r.Przebieg else Cell.na
    Price := if p.price then r.Price else Cell.na
    Description := if p.description then r.Description else Cell.na
    Error := if p.error then r.Error else Cell.na }

/-- An `Option Nat` stored into a cell: `None` becomes a missing value. -/
def optCell (v : Option Nat) : Cell :=
  match v with
  | none => Cell.na
  | some n => Cell.int (n : Int)

/-- Lines 99-100: write each field of the scraped dictionary into the row. -/
def writeScraped (d : ScrapeResult) (r : Row) : Row :=
  { r with
    Title := Cell.str d.Title
    Przebieg := optCell d.Przebieg
    Price := optCell d.Price
    Description := Cell.str d.Description
    Error := Cell.str d.Error }

/-- One iteration of the row loop (lines 93-102): skip rows with a missing
or blank URL, otherwise scrape and write; an exception escaping
`scrape_one` aborts the run. -/
def rowStep (fetch : String → FetchResult) (r : Row) : Except String Row :=
  if skipUrl r.url then Except.ok r
  else
    match scrape_one fetch (cellStr r.url) with
    | Except.error e => Except.error e
    | Except.ok d => Except.ok (writeScraped d r)

/-- The row loop over the whole sheet, in order; the first escaping
exception aborts the run with no output written. -/
def runRows (fetch : String → FetchResult) : List Row → Except String (List Row)
  | [] => Except.ok []
  | r :: rest =>
    match rowStep fetch r with
    | Except.error e => Except.error e
    | Except.ok r' =>
      match runRows fetch rest with
      | Except.error e => Except.error e
      | Except.ok rs => Except.ok (r' :: rs)

/-- Smallest `Int64` value. -/
def int64Min : Int := -(2 ^ 63)

/-- Largest `Int64` value. -/
def int64Max : Int := 2 ^ 63 - 1

/-- Whether an integer fits the `Int64` dtype. -/
def inInt64 (n : Int) : Bool :=
  decide (int64Min ≤ n ∧ n ≤ int64Max)

/-- What `pd.to_numeric(·, errors="coerce")` makes of one string:
not-a-number (non-numeric strings and the `nan` literal, which coerce to a
missing value), infinite (the `inf`/`infinity` literals), or the exact
finite value `m·10^e` of an integer, decimal or scientific literal. -/
inductive ToNumericResult where
  | nan
  | inf
  | val (m e : Int)
deriving Repr, DecidableEq

/-- The exponent part of a numeric literal, after `e`/`E`: an optional sign
followed by at least one digit, consuming the whole rest. -/
def parseExpPart (l : List Char) : Option Int :=
  match l with
  | '-' :: r =>
    if r ≠ [] ∧ r.all Char.isDigit then some (-(digitsToNat r : Int)) else none
  | '+' :: r =>
    if r ≠ [] ∧ r.all Char.isDigit then some ((digitsToNat r : Int)) else none
  | r =>
    if r ≠ [] ∧ r.all Char.isDigit then some ((digitsToNat r : Int)) else none

/-- `pd.to_numeric(·, errors="coerce")` on one string: after stripping
surrounding whitespace and an optional sign, recognise `inf`/`infinity` and
`nan` (case-insensitive), else parse `digits [. digits] [(e|E) exp]` (at
least one mantissa digit) to its exact decimal value; anything else coerces
to NaN.  The decimal value is kept exactly; literals whose significand
exceeds float64's 53-bit precision are outside the modelled domain. -/
def toNumericStr (s : String) : ToNumericResult :=
  let t := (pyStrip s).data
  let sg : Int := match t with | '-' :: _ => -1 | _ => 1
  let u : List Char := match t with | '-' :: r => r | '+' :: r => r | r => r
  let lower := u.map Char.toLower
  if lower = "inf".data ∨ lower = "infinity".data then ToNumericResult.inf
  else if lower = "nan".data then ToNumericResult.nan
  else
    let d1 := u.takeWhile Char.isDigit
    let r1 := u.dropWhile Char.isDigit
    match r1 with
    | [] =>
      if d1 = [] then ToNumericResult.nan
      else ToNumericResult.val (sg * digitsToNat d1) 0
    | '.' :: r2 =>
      let d2 := r2.takeWhile Char.isDigit
      let r3 := r2.dropWhile Char.isDigit
      if d1 = [] ∧ d2 = [] then ToNumericResult.nan
      else
        match r3 with
        | [] => ToNumericResult.val (sg * digitsToNat (d1 ++ d2)) (-(d2.length))
        | 'e' :: r4 =>
          match parseExpPart r4 with
          | some ex => ToNumericResult.val (sg * digitsToNat (d1 ++ d2)) (ex - d2.length)
          | none => ToNumericResult.nan
        | 'E' :: r4 =>
          match parseExpPart r4 with
          | some ex => ToNumericResult.val (sg * digitsToNat (d1 ++ d2)) (ex - d2.length)
          | none => ToNumericResult.nan
        | _ => ToNumericResult.nan
    | 'e' :: r4 =>
      if d1 = [] then ToNumericResult.nan
      else
        match parseExpPart r4 with
        | some ex => ToNumericResult.val (sg * digitsToNat d1) ex
        | none => ToNumericResult.nan
    | 'E' :: r4 =>
      if d1 = [] then ToNumericResult.nan
      else
        match parseExpPart r4 with
        | some ex => ToNumericResult.val (sg * digitsToNat d1) ex
        | none => ToNumericResult.nan
    | _ => ToNumericResult.nan

/-- The integer equal to `m·10^e`, when that value is an integer. -/
def valToInt (m e : Int) : Option Int :=
  if 0 ≤ e then some (m * 10 ^ e.toNat)
  else if m % (10 ^ (-e).toNat : Int) = 0 then some (m / 10 ^ (-e).toNat)
  else none

/-- `pd.to_numeric(·, errors="coerce").astype("Int64")` on one modelled
cell: a missing value stays missing; an integer stays if it fits `Int64`
and otherwise overflows `astype` (which raises); a string coercing to NaN
becomes missing, one equal to an in-range integer becomes that integer, and
an infinite, non-integral or out-of-range value makes `astype("Int64")`
raise. -/
def coerceCell (c : Cell) : Except String Cell :=
  match c with
  | Cell.na => Except.ok Cell.na
  | Cell.int n =>
    if inInt64 n then Except.ok (Cell.int n) else Except.error "TypeError"
  | Cell.str s =>
    match toNumericStr s with
    | ToNumericResult.nan => Except.ok Cell.na
    | ToNumericResult.inf => Except.error "TypeError"
    | ToNumericResult.val m e =>
      match valToInt m e with
      | some n =>
        if inInt64 n then Except.ok (Cell.int n) else Except.error "TypeError"
      | none => Except.error "TypeError"

/-- Line 104: coerce the whole `Przebieg` column; a cell on which
`astype("Int64")` raises aborts the run. -/
def coercePrzebiegCol : List Row → Except String (List Row)
  | [] => Except.ok []
  | r :: rest =>
    match coerceCell r.Przebieg with
    | Except.error e => Except.error e
    | Except.ok c =>
      match coercePrzebiegCol rest with
      | Except.error e => Except.error e
      | Except.ok rs => Except.ok ({ r with Przebieg := c } :: rs)

/-- Line 105: coerce the whole `Price` column; a cell on which
`astype("Int64")` raises aborts the run. -/
def coercePriceCol : List Row → Except String (List Row)
  | [] => Except.ok []
  | r :: rest =>
    match coerceCell r.Price with
    | Except.error e => Except.error e
    | Except.ok c =>
      match coercePriceCol rest with
      | Except.error e => Except.error e
      | Except.ok rs => Except.ok ({ r with Price := c } :: rs)

/-- `main` from `src/main.py` (spreadsheet I/O, printing and the throttle
sleep elided): create missing columns, run the row loop, then coerce the
`Przebieg` column (line 104) and the `Price` column (line 105).  An
exception escaping the loop or either coercion aborts the run. -/
def mainRun (fetch : String → FetchResult) (p : ColsPresent) (rows : List Row) :
    Except String (List Row) :=
  match runRows fetch (rows.map (addMissing p)) with
  | Except.error e => Except.error e
  | Except.ok rs =>
    match coercePrzebiegCol rs with
    | Except.error e => Except.error e
    | Except.ok rs2 =>
      match coercePriceCol rs2 with
      | Except.error e => Except.error e
      | Except.ok rs3 => Except.ok rs3

/-- What `__main__` does with its argument vector. -/
inductive CliAction where
  | usage
  | run (input : String) (output : Option String)
deriving Repr, DecidableEq

/-- Lines 112-116: `len(sys.argv) not in (2, 3)` prints the usage message
and exits with code 1; otherwise `main(*sys.argv[1:])`. -/
def cliMain (argv : List String) : CliAction :=
  if argv.length = 2 ∨ argv.length = 3 then
    match argv with
    | [_, i] => CliAction.run i none
    | [_, i, o] => CliAction.run i (some o)
    | _ => CliAction.usage
  else CliAction.usage

/-- Modelled from the spec wording, for comparison with `descriptionOf`:
prefer the container's newline-joined paragraph text when the container is
present and the joined text is non-empty; otherwise the trimmed
meta-description `content` attribute when present; otherwise `""`. -/
def descriptionSpec (s : Soup) : String :=
  match s.descDiv with
  | some paragraphs =>
    let joined := String.intercalate "\n" paragraphs
    if joined = "" then
      match s.metaDescContent with
      | some (some c) => pyStrip c
      | _ => ""
    else joined
  | none =>
    match s.metaDescContent with
    | some (some c) => pyStrip c
    | _ => ""

/-- Modelled from the spec wording: the first detail container having both a
label and a value paragraph whose label contains the mileage marker. -/
def firstMileageDetail (details : List (List String)) : Option (List String) :=
  details.find? (fun paragraphs =>
    match paragraphs with
    | label :: _ :: _ => pyContains label "Przebieg"
    | _ => false)

/-- Modelled from the spec wording, for comparison with `scanDetails`: the
mileage parsed from the value paragraph of the first matching detail
container. -/
def mileageDetailSpec (details : List (List String)) : Option Nat :=
  match firstMileageDetail details with
  | some (_ :: value :: _) => toInt (some value)
  | _ => none

/-! ### Helper lemmas -/

theorem toInt_some (t : String) :
    toInt (some t) =
      if stripNonDigits t = "" then none
      else some (digitsToNat (stripNonDigits t).data) := by
  unfold toInt
  by_cases h : t = ""
  · subst h
    simp [stripNonDigits]
  · simp [h]

theorem isDigit_eq_false_of_pyIsSpace (c : Char) (h : pyIsSpace c = true) :
    c.isDigit = false := by
  unfold pyIsSpace at h
  simp only [Bool.or_eq_true, decide_eq_true_eq] at h
  rcases h with ((((h | h) | h) | h) | h) | h <;> subst h <;> rfl

theorem filter_isDigit_of_space (l : List Char) (h : l.all pyIsSpace = true) :
    l.filter Char.isDigit = [] := by
  induction l with
  | nil => rfl
  | cons c cs ih =>
    rw [List.all_cons, Bool.and_eq_true] at h
    rw [List.filter_cons, isDigit_eq_false_of_pyIsSpace c h.1]
    exact ih h.2

theorem stripNonDigits_space_pad (pre v post : String)
    (h1 : pre.data.all pyIsSpace = true) (h2 : post.data.all pyIsSpace = true) :
    stripNonDigits (pre ++ v ++ post) = stripNonDigits v := by
  unfold stripNonDigits
  rw [String.data_append, String.data_append, List.filter_append,
    List.filter_append, filter_isDigit_of_space _ h1,
    filter_isDigit_of_space _ h2, List.nil_append, List.append_nil]

theorem toInt_space_pad (pre v post : String)
    (h1 : pre.data.all pyIsSpace = true) (h2 : post.data.all pyIsSpace = true) :
    toInt (some (pre ++ v ++ post)) = toInt (some v) := by
  rw [toInt_some, toInt_some, stripNonDigits_space_pad pre v post h1 h2]

theorem scanDetails_eq_spec (l : List (List String)) :
    scanDetails l = mileageDetailSpec l := by
  induction l with
  | nil => rfl
  | cons ps rest ih =>
    unfold scanDetails mileageDetailSpec firstMileageDetail
    match ps with
    | [] => exact ih
    | [x] => exact ih
    | label :: value :: tail =>
      by_cases h : pyContains label "Przebieg"
      · simp [List.find?, h]
      · simp only [List.find?, h]
        simpa [mileageDetailSpec, firstMileageDetail] using ih

theorem descriptionOf_eq_spec (s : Soup) : descriptionOf s = descriptionSpec s := by
  unfold descriptionOf descriptionSpec
  have hstrip : pyStrip "" = "" := rfl
  rcases s with ⟨_, meta, dd, _, _, _⟩
  rcases meta with _ | ⟨_ | c⟩ <;> rcases dd with _ | ps <;>
    dsimp only <;> try rfl
  · by_cases hc : c = "" <;> simp [hc, hstrip]
  · by_cases hc : c = "" <;>
      by_cases hj : String.intercalate "\n" ps = "" <;> simp [hc, hj, hstrip]

theorem scrape_one_ok_fields (fetch : String → FetchResult) (url : String)
    (s : Soup) (d : ScrapeResult) (hf : fetch url = FetchResult.ok s)
    (hd : scrape_one fetch url = Except.ok d) :
    d.Przebieg = mileageOf s ∧ d.Price = priceOf s ∧
    d.Description = descriptionOf s ∧ d.Error = "" := by
  unfold scrape_one at hd
  rw [hf] at hd
  dsimp only at hd
  cases ht : titleStep s with
  | error e => rw [ht] at hd; simp at hd
  | ok ttl =>
    rw [ht] at hd
    dsimp only at hd
    injection hd with hd
    subst hd
    exact ⟨rfl, rfl, rfl, rfl⟩

theorem coerceCell_ok_shape (c c' : Cell) (h : coerceCell c = Except.ok c') :
    c' = Cell.na ∨ ∃ n : Int, c' = Cell.int n ∧ inInt64 n = true := by
  cases c with
  | na =>
    injection h with h
    exact Or.inl h.symm
  | int n =>
    by_cases hb : inInt64 n
    · rw [coerceCell, if_pos hb] at h
      injection h with h
      exact Or.inr ⟨n, h.symm, hb⟩
    · rw [coerceCell, if_neg hb] at h
      simp at h
  | str s =>
    rw [coerceCell] at h
    cases hts : toNumericStr s with
    | nan =>
      rw [hts] at h
      injection h with h
      exact Or.inl h.symm
    | inf =>
      rw [hts] at h
      simp at h
    | val m e =>
      rw [hts] at h
      dsimp only at h
      cases hv : valToInt m e with
      | none =>
        rw [hv] at h
        simp at h
      | some n =>
        rw [hv] at h
        dsimp only at h
        by_cases hb : inInt64 n
        · rw [if_pos hb] at h
          injection h with h
          exact Or.inr ⟨n, h.symm, hb⟩
        · rw [if_neg hb] at h
          simp at h

theorem coercePrzebiegCol_shape (rows out : List Row)
    (h : coercePrzebiegCol rows = Except.ok out) :
    ∀ r ∈ out,
      r.Przebieg = Cell.na ∨ ∃ n : Int, r.Przebieg = Cell.int n ∧ inInt64 n = true := by
  induction rows generalizing out with
  | nil =>
    injection h with h
    subst h
    intro r hr
    simp at hr
  | cons x xs ih =>
    rw [coercePrzebiegCol] at h
    cases hc : coerceCell x.Przebieg with
    | error e => rw [hc] at h; simp at h
    | ok c =>
      rw [hc] at h
      cases hrest : coercePrzebiegCol xs with
      | error e => rw [hrest] at h; simp at h
      | ok rs =>
        rw [hrest] at h
        injection h with h
        subst h
        intro r hr
        rcases List.mem_cons.mp hr with h1 | h1
        · subst h1
          exact coerceCell_ok_shape x.Przebieg c hc
        · exact ih rs hrest r h1

theorem coercePriceCol_shape (rows out : List Row)
    (h : coercePriceCol rows = Except.ok out) :
    ∀ r ∈ out,
      (r.Price = Cell.na ∨ ∃ n : Int, r.Price = Cell.int n ∧ inInt64 n = true) ∧
      ∃ x ∈ rows, r.Przebieg = x.Przebieg := by
  induction rows generalizing out with
  | nil =>
    injection h with h
    subst h
    intro r hr
    simp at hr
  | cons x xs ih =>
    rw [coercePriceCol] at h
    cases hc : coerceCell x.Price with
    | error e => rw [hc] at h; simp at h
    | ok c =>
      rw [hc] at h
      cases hrest : coercePriceCol xs with
      | error e => rw [hrest] at h; simp at h
      | ok rs =>
        rw [hrest] at h
        injection h with h
        subst h
        intro r hr
        rcases List.mem_cons.mp hr with h1 | h1
        · subst h1
          exact ⟨coerceCell_ok_shape x.Price c hc, x, List.mem_cons_self x xs, rfl⟩
        · obtain ⟨hp, y, hy, hyp⟩ := ih rs hrest r h1
          exact ⟨hp, y, List.mem_cons_of_mem x hy, hyp⟩

theorem runRows_cons (fetch : String → FetchResult) (r : Row) (rest : List Row) :
    runRows fetch (r :: rest) =
      match rowStep fetch r with
      | Except.error e => Except.error e
      | Except.ok r' =>
        match runRows fetch rest with
        | Except.error e => Except.error e
        | Except.ok rs => Except.ok (r' :: rs) := rfl

theorem coercePrzebiegCol_cons (x : Row) (xs : List Row) :
    coercePrzebiegCol (x :: xs) =
      match coerceCell x.Przebieg with
      | Except.error e => Except.error e
      | Except.ok c =>
        match coercePrzebiegCol xs with
        | Except.error e => Except.error e
        | Except.ok rs => Except.ok ({ x with Przebieg := c } :: rs) := rfl

theorem coercePriceCol_cons (x : Row) (xs : List Row) :
    coercePriceCol (x :: xs) =
      match coerceCell x.Price with
      | Except.error e => Except.error e
      | Except.ok c =>
        match coercePriceCol xs with
        | Except.error e => Except.error e
        | Except.ok rs => Except.ok ({ x with Price := c } :: rs) := rfl

theorem mainRun_cons_ok (fetch : String → FetchResult) (p : ColsPresent)
    (r : Row) (rest : List Row) (r' : Row) (cp cq : Cell)
    (h1 : rowStep fetch (addMissing p r) = Except.ok r')
    (h2 : coerceCell r'.Przebieg = Except.ok cp)
    (h3 : coerceCell r'.Price = Except.ok cq) :
    mainRun fetch p (r :: rest) =
      Except.map (fun rs => { r' with Przebieg := cp, Price := cq } :: rs)
        (mainRun fetch p rest) := by
  have h3' : coerceCell ({ r' with Przebieg := cp } : Row).Price = Except.ok cq := h3
  unfold mainRun
  rw [List.map_cons, runRows_cons, h1]
  cases hr : runRows fetch (List.map (addMissing p) rest) with
  | error e => rfl
  | ok rs =>
    dsimp only
    rw [coercePrzebiegCol_cons, h2]
    cases hrs2 : coercePrzebiegCol rs with
    | error e => rfl
    | ok rs2 =>
      dsimp only
      rw [coercePriceCol_cons, h3']
      cases hrs3 : coercePriceCol rs2 with
      | error e => rfl
      | ok rs3 => rfl

/-! ### Claim theorems -/

/-- C9: an argument vector whose length is neither 2 (program name plus
input sheet) nor 3 (plus output sheet) makes `__main__` print the usage
message and exit with code 1 without running `main`. -/
theorem spec_cli_usage (argv : List String) (h2 : argv.length ≠ 2)
    (h3 : argv.length ≠ 3) : cliMain argv = CliAction.usage := by
  have h : ¬(argv.length = 2 ∨ argv.length = 3) := by
    intro h
    cases h with
    | inl h => exact h2 h
    | inr h => exact h3 h
  unfold cliMain
  rw [if_neg h]

theorem spec_cli_usage_witness :
    (["bulk_scraper.py"] : List String).length ≠ 2 ∧
    (["bulk_scraper.py"] : List String).length ≠ 3 ∧
    cliMain ["bulk_scraper.py"] = CliAction.usage :=
  ⟨by decide, by decide, spec_cli_usage ["bulk_scraper.py"] (by decide) (by decide)⟩

/-- C2 (code bug): on a successfully fetched page whose `<title>` tag has no
single string child (`soup.title.string` is `None`, e.g. an empty
`<title></title>`), `scrape_one` raises `AttributeError` from the unguarded
`soup.title.string.strip()` instead of returning an `ExtractionResult`. -/
theorem scrape_one_raises_on_stringless_title :
    scrape_one
      (fun _ => FetchResult.ok
        { title := some none, metaDescContent := none, descDiv := none,
          priceText := none, mileageText := none, details := [] })
      "https://www.otomoto.pl/oferta/x" = Except.error "AttributeError" := rfl

/-- C3: whenever `scrape_one` returns on a fetched page, the extracted
description is the newline-join of the content container's paragraph texts
when the container is present and the join is non-empty; otherwise the
trimmed meta-description content attribute when present; otherwise `""`
(`descriptionSpec` is the spec-worded rule). -/
theorem spec_description_fallback (fetch : String → FetchResult) (url : String)
    (s : Soup) (d : ScrapeResult) (hf : fetch url = FetchResult.ok s)
    (hd : scrape_one fetch url = Except.ok d) :
    d.Description = descriptionSpec s := by
  rw [(scrape_one_ok_fields fetch url s d hf hd).2.2.1, descriptionOf_eq_spec]

theorem spec_description_fallback_witness :
    ({ Title := "", Przebieg := none, Price := none, Description := "hi",
       Error := "" } : ScrapeResult).Description =
      descriptionSpec
        { title := none, metaDescContent := some (some "  hi  "),
          descDiv := none, priceText := none, mileageText := none,
          details := [] } :=
  spec_description_fallback
    (fun _ => FetchResult.ok
      { title := none, metaDescContent := some (some "  hi  "),
        descDiv := none, priceText := none, mileageText := none,
        details := [] })
    "u"
    { title := none, metaDescContent := some (some "  hi  "), descDiv := none,
      priceText := none, mileageText := none, details := [] }
    { Title := "", Przebieg := none, Price := none, Description := "hi",
      Error := "" }
    rfl rfl

/-- C4: whenever `scrape_one` returns on a fetched page, the mileage comes
from the dedicated `data-testid="vehicle-mileage"` span when present;
otherwise from the value paragraph of the first `data-testid="detail"`
container whose label paragraph contains "Przebieg" (`mileageDetailSpec`);
parsing is unaffected by surrounding whitespace; and whenever neither
lookup yields digits the mileage is `none`. -/
theorem spec_mileage_extraction (fetch : String → FetchResult) (url : String)
    (s : Soup) (d : ScrapeResult) (hf : fetch url = FetchResult.ok s)
    (hd : scrape_one fetch url = Except.ok d) :
    (∀ t, s.mileageText = some t → d.Przebieg = toInt (some t)) ∧
    (s.mileageText = none → d.Przebieg = mileageDetailSpec s.details) ∧
    (toInt s.mileageText = none → scanDetails s.details = none →
      d.Przebieg = none) ∧
    (∀ pre v post : String, pre.data.all pyIsSpace = true →
      post.data.all pyIsSpace = true →
      toInt (some (pre ++ v ++ post)) = toInt (some v)) := by
  obtain ⟨hm, -, -, -⟩ := scrape_one_ok_fields fetch url s d hf hd
  refine ⟨?_, ?_, ?_, toInt_space_pad⟩
  · intro t ht
    rw [hm]
    unfold mileageOf
    rw [ht]
  · intro ht
    rw [hm]
    unfold mileageOf
    rw [ht, ← scanDetails_eq_spec]
  · intro h1 h2
    rw [hm]
    unfold mileageOf
    cases ht : s.mileageText with
    | none => exact h2
    | some t =>
      rw [ht] at h1
      exact h1

theorem spec_mileage_extraction_witness :
    ({ Title := "", Przebieg := some 100000, Price := none, Description := "",
       Error := "" } : ScrapeResult).Przebieg =
      mileageDetailSpec [["Moc", "140 KM"], ["Przebieg", " 100 000 km "]] :=
  (spec_mileage_extraction
    (fun _ => FetchResult.ok
      { title := none, metaDescContent := none, descDiv := none,
        priceText := none, mileageText := none,
        details := [["Moc", "140 KM"], ["Przebieg", " 100 000 km "]] })
    "u"
    { title := none, metaDescContent := none, descDiv := none,
      priceText := none, mileageText := none,
      details := [["Moc", "140 KM"], ["Przebieg", " 100 000 km "]] }
    { Title := "", Przebieg := some 100000, Price := none, Description := "",
      Error := "" }
    rfl rfl).2.1 rfl

/-- C6: whenever `scrape_one` returns on a fetched page, the price is
obtained from the price element's text by deleting every non-digit
character and parsing the remaining digits, it is `none` exactly when the
element is absent or its text has no digits, and `"49 900 zł"` parses to
`49900`. -/
theorem spec_price_parsing (fetch : String → FetchResult) (url : String)
    (s : Soup) (d : ScrapeResult) (hf : fetch url = FetchResult.ok s)
    (hd : scrape_one fetch url = Except.ok d) :
    (∀ t, s.priceText = some t →
      d.Price = (if stripNonDigits t = "" then none
                 else some (digitsToNat (stripNonDigits t).data))) ∧
    (d.Price = none ↔
      s.priceText = none ∨ ∃ t, s.priceText = some t ∧ stripNonDigits t = "") ∧
    toInt (some "49 900 zł") = some 49900 := by
  obtain ⟨-, hp, -, -⟩ := scrape_one_ok_fields fetch url s d hf hd
  refine ⟨?_, ?_, by decide⟩
  · intro t ht
    rw [hp]
    unfold priceOf
    rw [ht]
    exact toInt_some t
  · rw [hp]
    unfold priceOf
    cases ht : s.priceText with
    | none => simp
    | some t =>
      show toInt (some t) = none ↔ _
      rw [toInt_some]
      by_cases hz : stripNonDigits t = "" <;> simp [hz]

theorem spec_price_parsing_witness :
    ({ Title := "", Przebieg := none, Price := some 49900, Description := "",
       Error := "" } : ScrapeResult).Price =
      (if stripNonDigits "49 900 zł" = "" then none
       else some (digitsToNat (stripNonDigits "49 900 zł").data)) :=
  (spec_price_parsing
    (fun _ => FetchResult.ok
      { title := none, metaDescContent := none, descDiv := none,
        priceText := some "49 900 zł", mileageText := none, details := [] })
    "u"
    { title := none, metaDescContent := none, descDiv := none,
      priceText := some "49 900 zł", mileageText := none, details := [] }
    { Title := "", Przebieg := none, Price := some 49900, Description := "",
      Error := "" }
    rfl rfl).1 "49 900 zł" rfl

/-- C10: whenever the fetch succeeds, any result `scrape_one` returns has an
empty `Error` field — missing HTML structure or unparseable numbers never
set it — and whenever the fetch raises with a non-empty exception text, the
returned result's `Error` is that text, hence non-empty. -/
theorem spec_error_iff_fetch_failed (fetch : String → FetchResult)
    (url : String) :
    (∀ s d, fetch url = FetchResult.ok s →
      scrape_one fetch url = Except.ok d → d.Error = "") ∧
    (∀ msg, fetch url = FetchResult.err msg → msg ≠ "" →
      ∃ d, scrape_one fetch url = Except.ok d ∧ d.Error = msg ∧
        d.Error ≠ "") := by
  constructor
  · intro s d hf hd
    exact (scrape_one_ok_fields fetch url s d hf hd).2.2.2
  · intro msg hf hm
    refine ⟨{ Title := "", Przebieg := none, Price := none, Description := "",
              Error := msg }, ?_, rfl, hm⟩
    unfold scrape_one
    rw [hf]

theorem spec_error_iff_fetch_failed_witness :
    ∃ d, scrape_one (fun _ => FetchResult.err "connection refused") "u" =
        Except.ok d ∧ d.Error = "connection refused" ∧ d.Error ≠ "" :=
  (spec_error_iff_fetch_failed
    (fun _ => FetchResult.err "connection refused") "u").2
    "connection refused" rfl (by decide)

/-- C1: when the fetch of a row's URL raises an exception with (non-empty)
text `msg`, `scrape_one` returns the skeleton result — empty title and
description, null mileage and price, `Error = msg` — and the batch driver
writes that result into the row and processes the remaining rows exactly as
it processes the rest of the batch (the failure aborts nothing). -/
theorem spec_fetch_error_row (fetch : String → FetchResult) (p : ColsPresent)
    (r : Row) (rest : List Row) (msg : String)
    (hskip : skipUrl r.url = false)
    (hf : fetch (cellStr r.url) = FetchResult.err msg) (hm : msg ≠ "") :
    ∃ d : ScrapeResult,
      scrape_one fetch (cellStr r.url) = Except.ok d ∧
      d.Error = msg ∧ d.Error ≠ "" ∧ d.Title = "" ∧ d.Przebieg = none ∧
      d.Price = none ∧ d.Description = "" ∧
      mainRun fetch p (r :: rest) =
        Except.map
          (fun rs => writeScraped d (addMissing p r) :: rs)
          (mainRun fetch p rest) := by
  have hurl : (addMissing p r).url = r.url := rfl
  have hd : scrape_one fetch (cellStr r.url) =
      Except.ok { Title := "", Przebieg := none, Price := none,
                  Description := "", Error := msg } := by
    unfold scrape_one
    rw [hf]
  refine ⟨_, hd, rfl, hm, rfl, rfl, rfl, rfl, ?_⟩
  have hstep : rowStep fetch (addMissing p r) =
      Except.ok (writeScraped
        { Title := "", Przebieg := none, Price := none, Description := "",
          Error := msg } (addMissing p r)) := by
    unfold rowStep
    rw [hurl, hskip]
    simp only [Bool.false_eq_true, if_false]
    rw [hd]
  have hmain := mainRun_cons_ok fetch p r rest
    (writeScraped
      { Title := "", Przebieg := none, Price := none, Description := "",
        Error := msg } (addMissing p r))
    Cell.na Cell.na hstep rfl rfl
  have hrow : ({ writeScraped
      { Title := "", Przebieg := none, Price := none, Description := "",
        Error := msg } (addMissing p r) with
      Przebieg := Cell.na, Price := Cell.na } : Row) =
      writeScraped
        { Title := "", Przebieg := none, Price := none, Description := "",
          Error := msg } (addMissing p r) := rfl
  rw [hrow] at hmain
  exact hmain

theorem spec_fetch_error_row_witness :
    ∃ d : ScrapeResult,
      scrape_one (fun _ => FetchResult.err "timeout")
          (cellStr (Cell.str "https://www.otomoto.pl/oferta/x")) =
        Except.ok d ∧
      d.Error = "timeout" ∧ d.Error ≠ "" ∧ d.Title = "" ∧ d.Przebieg = none ∧
      d.Price = none ∧ d.Description = "" ∧
      mainRun (fun _ => FetchResult.err "timeout")
          { title := true, przebieg := true, price := true,
            description := true, error := true }
          ({ url := Cell.str "https://www.otomoto.pl/oferta/x",
             Title := Cell.na, Przebieg := Cell.na, Price := Cell.na,
             Description := Cell.na, Error := Cell.na } ::
            [{ url := Cell.na, Title := Cell.na, Przebieg := Cell.na,
               Price := Cell.na, Description := Cell.na,
               Error := Cell.na }]) =
        Except.map
          (fun rs =>
            writeScraped d (addMissing
              { title := true, przebieg := true, price := true,
                description := true, error := true }
              { url := Cell.str "https://www.otomoto.pl/oferta/x",
                Title := Cell.na, Przebieg := Cell.na, Price := Cell.na,
                Description := Cell.na, Error := Cell.na }) :: rs)
          (mainRun (fun _ => FetchResult.err "timeout")
            { title := true, przebieg := true, price := true,
              description := true, error := true }
            [{ url := Cell.na, Title := Cell.na, Przebieg := Cell.na,
               Price := Cell.na, Description := Cell.na,
               Error := Cell.na }]) :=
  spec_fetch_error_row (fun _ => FetchResult.err "timeout")
    { title := true, przebieg := true, price := true, description := true,
      error := true }
    { url := Cell.str "https://www.otomoto.pl/oferta/x", Title := Cell.na,
      Przebieg := Cell.na, Price := Cell.na, Description := Cell.na,
      Error := Cell.na }
    [{ url := Cell.na, Title := Cell.na, Przebieg := Cell.na,
       Price := Cell.na, Description := Cell.na, Error := Cell.na }]
    "timeout" (by decide) rfl (by decide)

/-- C5 (counterexample): a row whose URL cell is missing is NOT left
untouched by the batch — its pre-existing non-numeric `Przebieg` cell is
rewritten to null by the end-of-run numeric coercion. -/
theorem skipped_row_changed_by_coercion :
    skipUrl Cell.na = true ∧
    mainRun (fun _ => FetchResult.err "network error")
        { title := true, przebieg := true, price := true,
          description := true, error := true }
        [{ url := Cell.na, Title := Cell.str "t",
           Przebieg := Cell.str "about 1000 km", Price := Cell.na,
           Description := Cell.str "d", Error := Cell.str "" }] =
      Except.ok
        [{ url := Cell.na, Title := Cell.str "t", Przebieg := Cell.na,
           Price := Cell.na, Description := Cell.str "d",
           Error := Cell.str "" }] ∧
    ({ url := Cell.na, Title := Cell.str "t", Przebieg := Cell.na,
       Price := Cell.na, Description := Cell.str "d",
       Error := Cell.str "" } : Row) ≠
      { url := Cell.na, Title := Cell.str "t",
        Przebieg := Cell.str "about 1000 km", Price := Cell.na,
        Description := Cell.str "d", Error := Cell.str "" } :=
  ⟨rfl, rfl, by decide⟩

/-- C5 (amended): a row with a missing or blank URL cell receives no
extraction output — its URL is unchanged, its Title, Description and Error
cells keep their prior values (or are created as null when the column was
missing) — and the batch processes the remaining rows exactly as it
processes the rest of the batch; but the row is not fully untouched: its
`Przebieg` and `Price` cells still undergo the end-of-run numeric coercion
(stated here for a row whose two numeric cells coerce without raising; a
cell on which `astype("Int64")` raises aborts the whole run instead). -/
theorem spec_skipped_row (fetch : String → FetchResult) (p : ColsPresent)
    (r : Row) (rest : List Row) (cp cq : Cell) (h : skipUrl r.url = true)
    (h2 : coerceCell (addMissing p r).Przebieg = Except.ok cp)
    (h3 : coerceCell (addMissing p r).Price = Except.ok cq) :
    mainRun fetch p (r :: rest) =
      Except.map
        (fun rs => { addMissing p r with Przebieg := cp, Price := cq } :: rs)
        (mainRun fetch p rest) ∧
    ({ addMissing p r with Przebieg := cp, Price := cq } : Row).url = r.url ∧
    ({ addMissing p r with Przebieg := cp, Price := cq } : Row).Title =
      (if p.title then r.Title else Cell.na) ∧
    ({ addMissing p r with Przebieg := cp, Price := cq } : Row).Description =
      (if p.description then r.Description else Cell.na) ∧
    ({ addMissing p r with Przebieg := cp, Price := cq } : Row).Error =
      (if p.error then r.Error else Cell.na) ∧
    ({ addMissing p r with Przebieg := cp, Price := cq } : Row).Przebieg =
      cp ∧
    ({ addMissing p r with Przebieg := cp, Price := cq } : Row).Price =
      cq := by
  refine ⟨?_, rfl, rfl, rfl, rfl, rfl, rfl⟩
  have hstep : rowStep fetch (addMissing p r) =
      Except.ok (addMissing p r) := by
    unfold rowStep
    have hurl : (addMissing p r).url = r.url := rfl
    rw [hurl, h]
    simp only [if_true]
  exact mainRun_cons_ok fetch p r rest (addMissing p r) cp cq hstep h2 h3

theorem spec_skipped_row_witness :
    mainRun (fun _ => FetchResult.err "e")
        { title := true, przebieg := true, price := true,
          description := true, error := true }
        ({ url := Cell.str "   ", Title := Cell.str "t",
           Przebieg := Cell.str "x", Price := Cell.int 3,
           Description := Cell.na, Error := Cell.na } :: []) =
      Except.map
        (fun rs =>
          { addMissing
              { title := true, przebieg := true, price := true,
                description := true, error := true }
              { url := Cell.str "   ", Title := Cell.str "t",
                Przebieg := Cell.str "x", Price := Cell.int 3,
                Description := Cell.na, Error := Cell.na } with
            Przebieg := Cell.na, Price := Cell.int 3 } :: rs)
        (mainRun (fun _ => FetchResult.err "e")
          { title := true, przebieg := true, price := true,
            description := true, error := true }
          []) :=
  (spec_skipped_row (fun _ => FetchResult.err "e")
    { title := true, przebieg := true, price := true, description := true,
      error := true }
    { url := Cell.str "   ", Title := Cell.str "t", Przebieg := Cell.str "x",
      Price := Cell.int 3, Description := Cell.na, Error := Cell.na }
    [] Cell.na (Cell.int 3) (by decide) rfl rfl).1

/-- C7: whenever the batch completes, every row of the output has its
`Przebieg` and `Price` cells of nullable-`Int64` type (null or an in-range
integer); the coercion maps missing, empty and non-numeric entries to null;
and — pinning the pandas semantics — the numeric strings `"12.0"` and
`"1e3"` coerce to the integers 12 and 1000, while the non-integral `"1.5"`
makes `astype("Int64")` raise. -/
theorem spec_numeric_coercion (fetch : String → FetchResult) (p : ColsPresent)
    (rows out : List Row) (h : mainRun fetch p rows = Except.ok out) :
    (∀ r ∈ out,
      (r.Przebieg = Cell.na ∨
        ∃ n : Int, r.Przebieg = Cell.int n ∧ inInt64 n = true) ∧
      (r.Price = Cell.na ∨
        ∃ n : Int, r.Price = Cell.int n ∧ inInt64 n = true)) ∧
    coerceCell Cell.na = Except.ok Cell.na ∧
    (∀ t : String, toNumericStr t = ToNumericResult.nan →
      coerceCell (Cell.str t) = Except.ok Cell.na) ∧
    coerceCell (Cell.str "") = Except.ok Cell.na ∧
    coerceCell (Cell.str "12.0") = Except.ok (Cell.int 12) ∧
    coerceCell (Cell.str "1e3") = Except.ok (Cell.int 1000) ∧
    coerceCell (Cell.str "1.5") = Except.error "TypeError" := by
  refine ⟨?_, rfl, ?_, rfl, rfl, rfl, rfl⟩
  · intro r hr
    unfold mainRun at h
    cases hrr : runRows fetch (rows.map (addMissing p)) with
    | error e =>
      rw [hrr] at h
      simp at h
    | ok rs =>
      rw [hrr] at h
      dsimp only at h
      cases hc1 : coercePrzebiegCol rs with
      | error e =>
        rw [hc1] at h
        simp at h
      | ok rs2 =>
        rw [hc1] at h
        dsimp only at h
        cases hc2 : coercePriceCol rs2 with
        | error e =>
          rw [hc2] at h
          simp at h
        | ok rs3 =>
          rw [hc2] at h
          injection h with h
          subst h
          obtain ⟨hp, x, hx, hxp⟩ := coercePriceCol_shape rs2 rs3 hc2 r hr
          refine ⟨?_, hp⟩
          rw [hxp]
          exact coercePrzebiegCol_shape rs rs2 hc1 x hx
  · intro t ht
    rw [coerceCell, ht]

theorem spec_numeric_coercion_witness :
    coerceCell (Cell.str "unknown") = Except.ok Cell.na :=
  (spec_numeric_coercion (fun _ => FetchResult.err "e")
    { title := true, przebieg := true, price := true, description := true,
      error := true }
    [{ url := Cell.str "u", Title := Cell.na, Przebieg := Cell.na,
       Price := Cell.na, Description := Cell.na, Error := Cell.na }]
    [{ url := Cell.str "u", Title := Cell.str "", Przebieg := Cell.na,
       Price := Cell.na, Description := Cell.str "",
       Error := Cell.str "e" }]
    rfl).2.2.1 "unknown" rfl

/-- C8: the extractor and the batch driver are deterministic functions of
the fetched page contents — two runs whose fetches return the same content
for every URL produce identical extracted values. -/
theorem spec_deterministic (fetch1 fetch2 : String → FetchResult)
    (p : ColsPresent) (rows : List Row) (h : ∀ u, fetch1 u = fetch2 u) :
    (∀ url, scrape_one fetch1 url = scrape_one fetch2 url) ∧
    mainRun fetch1 p rows = mainRun fetch2 p rows := by
  have hf : fetch1 = fetch2 := funext h
  subst hf
  exact ⟨fun _ => rfl, rfl⟩

theorem spec_deterministic_witness :
    mainRun (fun _ => FetchResult.err ("time" ++ "out"))
        { title := true, przebieg := true, price := true,
          description := true, error := true }
        [{ url := Cell.str "u", Title := Cell.na, Przebieg := Cell.na,
           Price := Cell.na, Description := Cell.na, Error := Cell.na }] =
      mainRun (fun _ => FetchResult.err "timeout")
        { title := true, przebieg := true, price := true,
          description := true, error := true }
        [{ url := Cell.str "u", Title := Cell.na, Przebieg := Cell.na,
           Price := Cell.na, Description := Cell.na, Error := Cell.na }] :=
  (spec_deterministic (fun _ => FetchResult.err ("time" ++ "out"))
    (fun _ => FetchResult.err "timeout")
    { title := true, przebieg := true, price := true, description := true,
      error := true }
    [{ url := Cell.str "u", Title := Cell.na, Przebieg := Cell.na,
       Price := Cell.na, Description := Cell.na, Error := Cell.na }]
    (fun _ => rfl)).2
